import Mathlib

/-!
Verification development for the apppermission-analyzer repository.

The Python source (apppermission_analyzer/{models.py, analyzer.py, cli.py})
is shallowly embedded below.  Effectful parts (filesystem checks, the
external aapt tool invocation, XML parsing of AndroidManifest.xml) are
modelled by an explicit environment record `Env`; Python exceptions that can
escape a function are modelled with `Except PyErr`.  Python string helpers
(str.lower, str.split, str.strip, startswith, the `in` containment test,
str on a nonnegative int) are embedded as executable functions on
`List Char` so that every definition reduces in the kernel.
-/

/-- Model of Python list-of-chars prefix test: does the second list start
with the first list. -/
def startsWithChars : List Char → List Char → Bool
  | [], _ => true
  | _ :: _, [] => false
  | c :: cs, d :: ds => (c == d) && startsWithChars cs ds

/-- Helper for substring containment: does the second list contain the first
list as a contiguous sublist. -/
def hasSubChars (sub : List Char) : List Char → Bool
  | [] => sub.isEmpty
  | d :: ds => startsWithChars sub (d :: ds) || hasSubChars sub ds

/-- Model of the Python test `sub in s` on strings. -/
def strContains (s sub : String) : Bool := hasSubChars sub.toList s.toList

/-- Model of Python `s.startswith(pat)`. -/
def strStartsWith (s pat : String) : Bool := startsWithChars pat.toList s.toList

/-- Model of Python `s.lower()` (charwise lowering; the identifiers handled
by the analyzer are ASCII). -/
def pyLower (s : String) : String := String.mk (s.toList.map Char.toLower)

/-- Splitter on a separator character, keeping empty fields, as Python
`s.split(sep)` does.  `cur` is the reversed current field. -/
def splitCharsAux (sep : Char) : List Char → List Char → List (List Char)
  | cur, [] => [cur.reverse]
  | cur, c :: cs =>
    if c == sep then cur.reverse :: splitCharsAux sep [] cs
    else splitCharsAux sep (c :: cur) cs

/-- Model of Python `s.split(sep)` for a one-character separator (all
separators used by the source are one character). -/
def pySplit (s : String) (sep : Char) : List String :=
  (splitCharsAux sep [] s.toList).map String.mk

/-- Whitespace characters recognized by Python `str.split()` / `str.strip()`
(the subset that can occur in the modelled inputs). -/
def isPyWs (c : Char) : Bool :=
  c == ' ' || c == '\t' || c == '\n' || c == '\r'

/-- Model of Python `s.strip()`: drop whitespace from both ends. -/
def pyStrip (s : String) : String :=
  String.mk (((s.toList.dropWhile isPyWs).reverse.dropWhile isPyWs).reverse)

/-- Model of Python `s.split()` (split on whitespace, discarding empty
fields). -/
def pySplitWs (s : String) : List String :=
  ((splitCharsAux ' ' [] s.toList).filter (fun l => !l.isEmpty)).map String.mk

/-- Decimal digit character. -/
def natDigitChar (d : Nat) : Char := Char.ofNat (48 + d)

/-- Fuel-driven decimal rendering accumulator. -/
def natDigitsAux : Nat → Nat → List Char → List Char
  | 0, _, acc => acc
  | fuel + 1, n, acc =>
    let acc2 := natDigitChar (n % 10) :: acc
    if n < 10 then acc2 else natDigitsAux fuel (n / 10) acc2

/-- Model of Python `str(n)` for a nonnegative integer (the counts
interpolated into the summary f-string). -/
def natToStr (n : Nat) : String := String.mk (natDigitsAux (n + 1) n [])

/-- Python exceptions that can escape the embedded functions:
`FileNotFoundError` raised by `analyze` on a missing path, `ValueError` on
an unsupported format, `xml.etree.ElementTree.ParseError` escaping
`ET.parse`, and `IndexError` from an out-of-range list index. -/
inductive PyErr where
  | fileNotFound
  | valueError
  | xmlParseError
  | indexError
deriving DecidableEq

/-- Model of Python `l[i]`: the element, or an IndexError. -/
def pyGet (l : List String) (i : Nat) : Except PyErr String :=
  match l.get? i with
  | some s => Except.ok s
  | none => Except.error PyErr.indexError

/-- models.py: the Permission dataclass. -/
structure Permission where
  name : String
  category : String := "Other"
  risk_level : String := "low"
  description : Option String := none
deriving DecidableEq

/-- models.py: the AppMetadata dataclass. -/
structure AppMetadata where
  package_name : String
  app_name : String
  version : String
  category : String := "unknown"
  developer : Option String := none
  min_sdk : Option String := none
  target_sdk : Option String := none
deriving DecidableEq

/-- analyzer.py `_identify_patterns`: the patterns dict, with the
`categories` dict modelled as an insertion-ordered association list (Python
dict semantics). -/
structure Patterns where
  total_count : Nat
  categories : List (String × Nat)
  high_risk_count : Nat
deriving DecidableEq

/-- models.py: the AnalysisResult dataclass. -/
structure AnalysisResult where
  app_id : String
  platform : String
  permissions : List Permission
  metadata : AppMetadata
  over_permissions : List String := []
  patterns : Patterns
deriving DecidableEq

/-- cli.py compare command: the comparison dict; the three permission-name
sets are Finsets since the Python code builds `set` objects. -/
structure ComparisonResult where
  app1 : String
  app2 : String
  common_permissions : Finset String
  only_in_app1 : Finset String
  only_in_app2 : Finset String

/-- analyzer.py `Analyzer._categorize_permission`. -/
def categorize_permission (perm_name : String) : String :=
  let perm_lower := pyLower perm_name
  if strContains perm_lower "location" || strContains perm_lower "gps" then "Location"
  else if strContains perm_lower "camera" then "Camera"
  else if strContains perm_lower "contact" || strContains perm_lower "phone" then "Contacts"
  else if strContains perm_lower "storage" || strContains perm_lower "read_external"
      || strContains perm_lower "write_external" then "Storage"
  else if strContains perm_lower "internet" || strContains perm_lower "network" then "Network"
  else if strContains perm_lower "sms" || strContains perm_lower "call" then "Communication"
  else "Other"

/-- analyzer.py `Analyzer._assess_risk`: the high_risk_perms list. -/
def high_risk_perms : List String :=
  ["location", "camera", "microphone", "contacts", "sms", "phone", "call"]

/-- analyzer.py `Analyzer._assess_risk`. -/
def assess_risk (perm_name : String) : String :=
  let perm_lower := pyLower perm_name
  if high_risk_perms.any (fun risk => strContains perm_lower risk) then "high"
  else if strContains perm_lower "storage" || strContains perm_lower "internet" then "medium"
  else "low"

/-- The Permission constructed at both appending sites of
`_extract_android_permissions`. -/
def mkPermission (perm_name : String) : Permission :=
  { name := perm_name
    category := categorize_permission perm_name
    risk_level := assess_risk perm_name
    description := none }

/-- Python dict update `d[cat] = d.get(cat, 0) + 1` on an insertion-ordered
association list. -/
def bumpCategory : List (String × Nat) → String → List (String × Nat)
  | [], c => [(c, 1)]
  | (k, v) :: rest, c =>
    if k == c then (k, v + 1) :: rest else (k, v) :: bumpCategory rest c

/-- analyzer.py `Analyzer._identify_patterns`. -/
def identify_patterns (permissions : List Permission) : Patterns :=
  { total_count := permissions.length
    categories := permissions.foldl (fun acc p => bumpCategory acc p.category) []
    high_risk_count := permissions.countP (fun p => p.risk_level == "high") }

/-- analyzer.py `Analyzer._detect_over_permissioning` (stub: returns []). -/
def detect_over_permissioning (_permissions : List Permission)
    (_metadata : AppMetadata) : List String := []

/-- Outcome of one `subprocess.run(["aapt", ...])` call that did not raise:
exit status and captured standard output. -/
structure ToolRun where
  returncode : Int
  stdout : String
deriving DecidableEq

/-- A present AndroidManifest.xml as seen through `ET.parse`: either the
parse raises (malformed XML), or it yields a root `package` attribute
(absent or present) and the namespaced `name` attribute of each
`uses-permission` element (absent attributes are `none`; `element.get`
substitutes the default). -/
inductive ManifestData where
  | malformed
  | wellFormed (packageAttr : Option String) (usesPermissionNames : List (Option String))
deriving DecidableEq

/-- The effectful surroundings of one `analyze` call: the facts about the
input path, the two aapt invocations (`none` means the call raised
FileNotFoundError or TimeoutExpired — tool missing or timed out), and the
AndroidManifest.xml / Info.plist files. -/
structure Env where
  pathStr : String
  name : String
  stem : String
  suffix : String
  pathExists : Bool
  isDir : Bool
  aaptBadging : Option ToolRun
  aaptPermissions : Option ToolRun
  manifest : Option ManifestData
  infoPlistExists : Bool
deriving DecidableEq

/-- analyzer.py `Analyzer._parse_aapt_output` loop body, one line at a time
over the metadata dict; `pyGet` models the indexings that can raise
IndexError, which the source does not catch. -/
def parse_aapt_fold (lines : List String) (m : AppMetadata) :
    Except PyErr AppMetadata :=
  match lines with
  | [] => Except.ok m
  | line :: rest => do
    let m2 ←
      if strStartsWith line "package: name=" then do
        let v ← pyGet (pySplit line '\x27') 1
        pure { m with package_name := v }
      else if strStartsWith line "application-label:" then do
        let v ← pyGet (pySplit line ':') 1
        pure { m with app_name := pyStrip v }
      else if strStartsWith line "versionCode=" then do
        let v ← pyGet (pySplit line '=') 1
        let w ← pyGet (pySplitWs v) 0
        pure { m with version := w }
      else pure m
    parse_aapt_fold rest m2

/-- analyzer.py `Analyzer._parse_aapt_output`. -/
def parse_aapt_output (output : String) : Except PyErr AppMetadata :=
  parse_aapt_fold (pySplit output '\n')
    { package_name := "unknown", app_name := "unknown"
      version := "unknown", category := "unknown" }

/-- analyzer.py `Analyzer._parse_manifest`: the try/except around `ET.parse`
turns a malformed manifest into the all-unknown record. -/
def parse_manifest (m : ManifestData) : AppMetadata :=
  match m with
  | ManifestData.malformed =>
    { package_name := "unknown", app_name := "unknown"
      version := "unknown", category := "unknown" }
  | ManifestData.wellFormed pkg _ =>
    let package_name := pkg.getD "unknown"
    { package_name := package_name, app_name := package_name
      version := "unknown", category := "unknown" }

/-- The default AppMetadata built from the path stem (used by both
`_extract_android_metadata` and `_extract_ios_metadata`). -/
def stemMetadata (env : Env) : AppMetadata :=
  { package_name := env.stem, app_name := env.stem
    version := "unknown", category := "unknown" }

/-- analyzer.py `Analyzer._extract_android_metadata`: aapt badging first
(tool absence and timeout are caught and fall through; a nonzero exit also
falls through), then AndroidManifest.xml, then the stem default.  An
IndexError inside `_parse_aapt_output` is not caught and propagates. -/
def extract_android_metadata (env : Env) : Except PyErr AppMetadata :=
  match env.aaptBadging with
  | some r =>
    if r.returncode == 0 then parse_aapt_output r.stdout
    else
      match env.manifest with
      | some m => Except.ok (parse_manifest m)
      | none => Except.ok (stemMetadata env)
  | none =>
    match env.manifest with
    | some m => Except.ok (parse_manifest m)
    | none => Except.ok (stemMetadata env)

/-- analyzer.py `_extract_android_permissions`, aapt branch: the loop over
the tool output lines; a line starting with `permission:` contributes the
token between the first and second colon, stripped, with no emptiness
check. -/
def toolPermLines (lines : List String) : Except PyErr (List Permission) :=
  match lines with
  | [] => Except.ok []
  | line :: rest => do
    let here ←
      if strStartsWith line "permission:" then do
        let v ← pyGet (pySplit line ':') 1
        pure [mkPermission (pyStrip v)]
      else pure ([] : List Permission)
    let more ← toolPermLines rest
    pure (here ++ more)

/-- analyzer.py `_extract_android_permissions`, manifest branch: `ET.parse`
is called with no try/except, so a malformed manifest raises; each
`uses-permission` element contributes its namespaced name attribute
(default "") when that is non-empty. -/
def manifestPerms (m : ManifestData) : Except PyErr (List Permission) :=
  match m with
  | ManifestData.malformed => Except.error PyErr.xmlParseError
  | ManifestData.wellFormed _ uses =>
    Except.ok
      (((uses.map (fun attr => attr.getD "")).filter (fun s => s != "")).map mkPermission)

/-- analyzer.py `Analyzer._extract_android_permissions`: the aapt source
(caught failures fall through, nonzero exit skips the loop) followed
unconditionally by the manifest source when the file exists. -/
def extract_android_permissions (env : Env) : Except PyErr (List Permission) := do
  let fromTool ←
    match env.aaptPermissions with
    | some r =>
      if r.returncode == 0 then toolPermLines (pySplit r.stdout '\n')
      else pure ([] : List Permission)
    | none => pure ([] : List Permission)
  let fromManifest ←
    match env.manifest with
    | some m => manifestPerms m
    | none => pure ([] : List Permission)
  pure (fromTool ++ fromManifest)

/-- analyzer.py `Analyzer._extract_ios_metadata`: Info.plist (through
`_parse_info_plist`, which uses the plist parent directory name) when the
input is a directory holding one, else the stem default. -/
def extract_ios_metadata (env : Env) : AppMetadata :=
  if env.isDir && env.infoPlistExists then
    { package_name := env.name, app_name := env.name
      version := "unknown", category := "unknown" }
  else stemMetadata env

/-- analyzer.py `Analyzer._extract_ios_permissions` (always returns []). -/
def extract_ios_permissions (_env : Env) : List Permission := []

/-- analyzer.py `Analyzer._analyze_android`. -/
def analyze_android (env : Env) : Except PyErr AnalysisResult := do
  let metadata ← extract_android_metadata env
  let permissions ← extract_android_permissions env
  let over_permissions := detect_over_permissioning permissions metadata
  let patterns := identify_patterns permissions
  pure
    { app_id := metadata.package_name
      platform := "Android"
      permissions := permissions
      metadata := metadata
      over_permissions := over_permissions
      patterns := patterns }

/-- analyzer.py `Analyzer._analyze_ios`. -/
def analyze_ios (env : Env) : Except PyErr AnalysisResult :=
  let metadata := extract_ios_metadata env
  let permissions := extract_ios_permissions env
  let over_permissions := detect_over_permissioning permissions metadata
  let patterns := identify_patterns permissions
  Except.ok
    { app_id := metadata.package_name
      platform := "iOS"
      permissions := permissions
      metadata := metadata
      over_permissions := over_permissions
      patterns := patterns }

/-- analyzer.py `Analyzer.analyze`: existence check, platform detection by
suffix or by a marker file name inside the path string, then the platform
analysis; unsupported shapes raise ValueError. -/
def analyze (env : Env) : Except PyErr AnalysisResult :=
  if !env.pathExists then Except.error PyErr.fileNotFound
  else if env.suffix == ".apk"
      || (env.isDir && strContains env.pathStr "AndroidManifest.xml") then
    analyze_android env
  else if env.suffix == ".ipa"
      || (env.isDir && strContains env.pathStr "Info.plist") then
    analyze_ios env
  else Except.error PyErr.valueError

/-- models.py `AnalysisResult.summary`: the f-string after `.strip()`
(strip removes exactly the leading newline and the trailing indentation of
the literal, since the first and last interpolation-free characters inside
are non-whitespace). -/
def summary (r : AnalysisResult) : String :=
  "Analysis Summary for " ++ r.app_id ++ "\n" ++
  "Platform: " ++ r.platform ++ "\n" ++
  "Total Permissions: " ++ natToStr r.permissions.length ++ "\n" ++
  "High Risk Permissions: " ++ natToStr (r.permissions.countP (fun p => p.risk_level == "high")) ++ "\n" ++
  "Over-Permissions Detected: " ++ natToStr r.over_permissions.length

/-- The lines of a string: split its characters on the newline character. -/
def linesOf (s : String) : List (List Char) := splitCharsAux '\n' [] s.toList

/-- cli.py compare command: the name set of one result
(`{p.name for p in result.permissions}`). -/
def permNames (r : AnalysisResult) : Finset String :=
  (r.permissions.map Permission.name).toFinset

/-- cli.py compare command: intersection and the two set differences. -/
def compareResults (app1 app2 : String) (result1 result2 : AnalysisResult) :
    ComparisonResult :=
  let perms1 := permNames result1
  let perms2 := permNames result2
  { app1 := app1
    app2 := app2
    common_permissions := perms1 ∩ perms2
    only_in_app1 := perms1 \ perms2
    only_in_app2 := perms2 \ perms1 }

/-- Sum of the per-category counters of an association list. -/
def sumCounts : List (String × Nat) → Nat
  | [] => 0
  | kv :: rest => kv.2 + sumCounts rest

def envC6a : Env :=
  { pathStr := "/apps/a.apk", name := "a.apk", stem := "a", suffix := ".apk"
    pathExists := true, isDir := false
    aaptBadging := some { returncode := 0, stdout := "package: name=\x27com.a\x27" }
    aaptPermissions := none, manifest := none, infoPlistExists := false }

def envC6b : Env :=
  { pathStr := "/apps/b", name := "b", stem := "b", suffix := ""
    pathExists := true, isDir := true, aaptBadging := none, aaptPermissions := none
    manifest := some (ManifestData.wellFormed (some "com.b") []), infoPlistExists := false }

def envC6c : Env :=
  { pathStr := "/apps/c", name := "c", stem := "c", suffix := ""
    pathExists := true, isDir := true, aaptBadging := none, aaptPermissions := none
    manifest := none, infoPlistExists := false }

def envC7 : Env :=
  { pathStr := "/apps/myapp", name := "myapp", stem := "myapp", suffix := ""
    pathExists := true, isDir := true, aaptBadging := none, aaptPermissions := none
    manifest := some ManifestData.malformed, infoPlistExists := false }

def envC9 : Env :=
  { pathStr := "/apps/app.apk", name := "app.apk", stem := "app", suffix := ".apk"
    pathExists := true, isDir := false, aaptBadging := none
    aaptPermissions := some { returncode := 0, stdout := "permission:" }
    manifest := none, infoPlistExists := false }

def envC1 : Env :=
  { pathStr := "/apps/app.apk", name := "app.apk", stem := "app", suffix := ".apk"
    pathExists := true, isDir := true, aaptBadging := none, aaptPermissions := none
    manifest := some ManifestData.malformed, infoPlistExists := false }

def resC8 : AnalysisResult :=
  { app_id := "com.example.app", platform := "Android", permissions := []
    metadata := { package_name := "com.example.app", app_name := "app"
                  version := "unknown", category := "unknown" }
    over_permissions := [], patterns := identify_patterns [] }

theorem sumCounts_bumpCategory (cats : List (String × Nat)) (c : String) :
    sumCounts (bumpCategory cats c) = sumCounts cats + 1 := by
  induction cats with
  | nil => simp [bumpCategory, sumCounts]
  | cons kv rest ih =>
    obtain ⟨k, v⟩ := kv
    by_cases h : (k == c) = true
    · simp [bumpCategory, h, sumCounts]
      omega
    · simp [bumpCategory, h, sumCounts, ih]
      omega

theorem sumCounts_foldl (perms : List Permission) (acc : List (String × Nat)) :
    sumCounts (perms.foldl (fun a p => bumpCategory a p.category) acc) =
      sumCounts acc + perms.length := by
  induction perms generalizing acc with
  | nil => simp
  | cons p rest ih =>
    simp [List.foldl, ih, sumCounts_bumpCategory]
    omega

/-- C4: for every permission sequence the pattern summary has total_count
equal to the length, high_risk_count equal to the number of high-risk
permissions, and category counters summing to total_count. -/
theorem C4_patterns (P : List Permission) :
    (identify_patterns P).total_count = P.length ∧
    (identify_patterns P).high_risk_count =
      (P.filter (fun p => p.risk_level == "high")).length ∧
    sumCounts (identify_patterns P).categories = (identify_patterns P).total_count := by
  refine ⟨rfl, ?_, ?_⟩
  · simp [identify_patterns, List.countP_eq_length_filter]
  · simp [identify_patterns, sumCounts_foldl, sumCounts]

/-- C5: the comparator satisfies the set identities of the spec. -/
theorem C5_compare (a1 a2 : String) (A B : AnalysisResult) :
    (compareResults a1 a2 A B).common_permissions ∪ (compareResults a1 a2 A B).only_in_app1
      = permNames A ∧
    (compareResults a1 a2 A B).common_permissions ∩ (compareResults a1 a2 A B).only_in_app1
      = ∅ ∧
    (compareResults a1 a2 A B).common_permissions ∪ (compareResults a1 a2 A B).only_in_app2
      = permNames B ∧
    (compareResults a1 a2 A B).common_permissions ∩ (compareResults a1 a2 A B).only_in_app2
      = ∅ ∧
    (compareResults a1 a2 A B).common_permissions
      = (compareResults a2 a1 B A).common_permissions := by
  refine ⟨?_, ?_, ?_, ?_, ?_⟩ <;> (ext x; simp [compareResults]) <;> tauto

/-- C2 counterexample: a name containing both phone and internet that does
not categorize as Contacts (the location rule fires first). -/
theorem C2_counterexample :
    strContains (pyLower "location_phone_internet") "phone" = true ∧
    strContains (pyLower "location_phone_internet") "internet" = true ∧
    categorize_permission "location_phone_internet" ≠ "Contacts" := by decide

/-- C2 (amended): categorize always lands in the seven categories, the
empty string maps to Other, and a name containing phone and internet maps
to Contacts provided no higher-priority keyword (location, gps, camera)
occurs in it. -/
theorem C2_categorize_classified :
    (∀ s : String,
      categorize_permission s ∈
        ["Location", "Camera", "Contacts", "Storage", "Network", "Communication", "Other"]) ∧
    categorize_permission "" = "Other" ∧
    (∀ s : String,
      strContains (pyLower s) "phone" = true →
      strContains (pyLower s) "internet" = true →
      strContains (pyLower s) "location" = false →
      strContains (pyLower s) "gps" = false →
      strContains (pyLower s) "camera" = false →
      categorize_permission s = "Contacts") := by
  refine ⟨?_, by decide, ?_⟩
  · intro s
    unfold categorize_permission
    dsimp only
    split_ifs <;> simp
  · intro s hp hi hl hg hc
    unfold categorize_permission
    simp [hp, hl, hg, hc]

theorem C2_categorize_classified_witness :
    categorize_permission "phone_internet" = "Contacts" :=
  C2_categorize_classified.2.2 "phone_internet" (by decide) (by decide) (by decide)
    (by decide) (by decide)

/-- C3: risk assessment returns high when a high-risk keyword occurs in the
lowered name (regardless of medium-risk keywords), medium when only a
medium-risk keyword occurs, and low otherwise. -/
theorem C3_assess_risk (s : String) :
    (high_risk_perms.any (fun risk => strContains (pyLower s) risk) = true →
      assess_risk s = "high") ∧
    (high_risk_perms.any (fun risk => strContains (pyLower s) risk) = false →
      (strContains (pyLower s) "storage" || strContains (pyLower s) "internet") = true →
      assess_risk s = "medium") ∧
    (high_risk_perms.any (fun risk => strContains (pyLower s) risk) = false →
      (strContains (pyLower s) "storage" || strContains (pyLower s) "internet") = false →
      assess_risk s = "low") := by
  refine ⟨?_, ?_, ?_⟩
  · intro h1
    unfold assess_risk
    simp [h1]
  · intro h1 h2
    unfold assess_risk
    simp [h1, h2]
  · intro h1 h2
    unfold assess_risk
    simp [h1, h2]

theorem C3_assess_risk_witness : assess_risk "storage_and_location" = "high" :=
  (C3_assess_risk "storage_and_location").1 (by decide)

/-- C10: a name in the Location category via the gps keyword whose risk
level is nonetheless low. -/
theorem C10_gps_location_low_risk :
    categorize_permission "enable_gps" = "Location" ∧ assess_risk "enable_gps" = "low" := by
  decide

/-- C6: the Android metadata sources are tried in priority order with
short-circuit — tool success returns the parsed tool output whatever the
manifest holds; with no tool, a well-formed manifest supplies its root
package attribute; with neither source, the stem default is returned. -/
theorem C6_metadata_priority (env : Env) :
    (∀ r : ToolRun, env.aaptBadging = some r → r.returncode = 0 →
      ∀ m2 : Option ManifestData,
        extract_android_metadata { env with manifest := m2 } = parse_aapt_output r.stdout) ∧
    (env.aaptBadging = none →
      ∀ (pkg : String) (uses : List (Option String)),
        env.manifest = some (ManifestData.wellFormed (some pkg) uses) →
        extract_android_metadata env = Except.ok
          { package_name := pkg, app_name := pkg, version := "unknown", category := "unknown" }) ∧
    (env.aaptBadging = none → env.manifest = none →
      extract_android_metadata env = Except.ok
        { package_name := env.stem, app_name := env.stem
          version := "unknown", category := "unknown" }) := by
  refine ⟨?_, ?_, ?_⟩
  · intro r hr h0 m2
    unfold extract_android_metadata
    simp [hr, h0]
  · intro hb pkg uses hm
    unfold extract_android_metadata
    simp [hb, hm, parse_manifest]
  · intro hb hm
    unfold extract_android_metadata
    simp [hb, hm, stemMetadata]

theorem C6_metadata_priority_witness :
    extract_android_metadata envC6a = parse_aapt_output "package: name=\x27com.a\x27" ∧
    extract_android_metadata envC6b = Except.ok
      { package_name := "com.b", app_name := "com.b", version := "unknown", category := "unknown" } ∧
    extract_android_metadata envC6c = Except.ok
      { package_name := "c", app_name := "c", version := "unknown", category := "unknown" } :=
  ⟨(C6_metadata_priority envC6a).1 { returncode := 0, stdout := "package: name=\x27com.a\x27" }
      rfl rfl none,
   (C6_metadata_priority envC6b).2.1 rfl "com.b" [] rfl,
   (C6_metadata_priority envC6c).2.2 rfl rfl⟩

/-- C7 counterexample: with no tool and a malformed manifest, the returned
package_name is the literal "unknown", not the filesystem stem. -/
theorem C7_counterexample :
    envC7.aaptBadging = none ∧
    envC7.manifest = some ManifestData.malformed ∧
    envC7.stem = "myapp" ∧
    extract_android_metadata envC7 = Except.ok
      { package_name := "unknown", app_name := "unknown"
        version := "unknown", category := "unknown" } ∧
    ("unknown" : String) ≠ "myapp" :=
  ⟨rfl, rfl, rfl, rfl, by decide⟩

/-- C7 (amended): with no tool and a malformed manifest, extraction catches
the parse failure and returns the all-"unknown" record (package_name and
app_name both "unknown", not the stem) rather than propagating. -/
theorem C7_malformed_manifest_default (env : Env)
    (hb : env.aaptBadging = none)
    (hm : env.manifest = some ManifestData.malformed) :
    extract_android_metadata env = Except.ok
      { package_name := "unknown", app_name := "unknown"
        version := "unknown", category := "unknown" } := by
  unfold extract_android_metadata
  simp [hb, hm, parse_manifest]

theorem C7_malformed_manifest_default_witness :
    extract_android_metadata envC7 = Except.ok
      { package_name := "unknown", app_name := "unknown"
        version := "unknown", category := "unknown" } :=
  C7_malformed_manifest_default envC7 rfl rfl

/-- C9 counterexample: the tool source appends a permission with an empty
name for the output line "permission:" (the token between the colons is
empty after trimming; there is no emptiness check on this path). -/
theorem C9_counterexample :
    extract_android_permissions envC9 = Except.ok
      [{ name := "", category := "Other", risk_level := "low", description := none }] ∧
    ({ name := "", category := "Other", risk_level := "low"
       description := none } : Permission).name = "" :=
  ⟨rfl, rfl⟩

/-- C9 (amended): the manifest source only ever appends permissions with a
non-empty identifier. -/
theorem C9_manifest_names_nonempty (pkg : Option String)
    (uses : List (Option String)) (perms : List Permission)
    (h : manifestPerms (ManifestData.wellFormed pkg uses) = Except.ok perms) :
    ∀ p ∈ perms, p.name ≠ "" := by
  intro p hp
  simp only [manifestPerms, Except.ok.injEq] at h
  subst h
  rcases List.mem_map.mp hp with ⟨s, hs, rfl⟩
  have hne := (List.mem_filter.mp hs).2
  simpa [mkPermission] using hne

theorem C9_manifest_names_nonempty_witness :
    ({ name := "android.permission.CAMERA", category := "Camera"
       risk_level := "high", description := none } : Permission).name ≠ "" :=
  C9_manifest_names_nonempty (some "com.x") [some "android.permission.CAMERA"]
    [{ name := "android.permission.CAMERA", category := "Camera"
       risk_level := "high", description := none }]
    rfl
    { name := "android.permission.CAMERA", category := "Camera"
      risk_level := "high", description := none }
    (by simp)

/-- C1: with the tool unavailable and a malformed AndroidManifest.xml, the
uncaught ET.parse call inside the permission extractor makes analyze fail
with the XML parse error — an error that is neither NotFound nor
UnsupportedFormat, contradicting the stated recovery policy. -/
theorem C1_parse_error_escapes_analyze :
    analyze envC1 = Except.error PyErr.xmlParseError ∧
    PyErr.xmlParseError ≠ PyErr.fileNotFound ∧
    PyErr.xmlParseError ≠ PyErr.valueError :=
  ⟨rfl, by decide, by decide⟩

theorem strToList_append (a b : String) : (a ++ b).toList = a.toList ++ b.toList := rfl

theorem splitCharsAux_sepFree (sep : Char) (l : List Char)
    (hl : ∀ c ∈ l, (c == sep) = false) :
    ∀ cur cs, splitCharsAux sep cur (l ++ cs) = splitCharsAux sep (l.reverse ++ cur) cs := by
  induction l with
  | nil => intro cur cs; simp
  | cons c l ih =>
    intro cur cs
    have hc := hl c (by simp)
    have hrest : ∀ x ∈ l, (x == sep) = false := fun x hx => hl x (by simp [hx])
    have step : splitCharsAux sep cur ((c :: l) ++ cs) = splitCharsAux sep (c :: cur) (l ++ cs) := by
      simp [splitCharsAux, hc]
    rw [step, ih hrest (c :: cur) cs]
    simp

theorem splitCharsAux_sep_cons (sep : Char) (cur cs : List Char) :
    splitCharsAux sep cur (sep :: cs) = cur.reverse :: splitCharsAux sep [] cs := by
  simp [splitCharsAux]

theorem splitCharsAux_last (l cur : List Char)
    (hl : ∀ c ∈ l, (c == '\n') = false) :
    splitCharsAux '\n' cur l = [cur.reverse ++ l] := by
  have h := splitCharsAux_sepFree '\n' l hl cur []
  rw [List.append_nil] at h
  rw [h]
  simp [splitCharsAux]

theorem sepFree_of_ne (sep : Char) (l : List Char) (h : ∀ c ∈ l, c ≠ sep) :
    ∀ c ∈ l, (c == sep) = false := by
  intro c hc
  simpa using h c hc

theorem natDigitsAux_ne_nl (fuel : Nat) : ∀ (n : Nat) (acc : List Char),
    (∀ c ∈ acc, c ≠ '\n') → ∀ c ∈ natDigitsAux fuel n acc, c ≠ '\n' := by
  induction fuel with
  | zero => intro n acc hacc; simpa [natDigitsAux] using hacc
  | succ fuel ih =>
    intro n acc hacc
    have hd : natDigitChar (n % 10) ≠ '\n' := by
      have hall : ∀ d, d < 10 → natDigitChar d ≠ '\n' := by decide
      exact hall (n % 10) (Nat.mod_lt _ (by decide))
    have hacc2 : ∀ c ∈ natDigitChar (n % 10) :: acc, c ≠ '\n' := by
      intro c hc
      rcases List.mem_cons.mp hc with h | h
      · exact h ▸ hd
      · exact hacc c h
    intro c hc
    simp only [natDigitsAux] at hc
    by_cases h : n < 10
    · simp only [if_pos h] at hc
      exact hacc2 c hc
    · simp only [if_neg h] at hc
      exact ih (n / 10) (natDigitChar (n % 10) :: acc) hacc2 c hc

theorem natToStr_ne_nl (n : Nat) : ∀ c ∈ (natToStr n).toList, c ≠ '\n' :=
  natDigitsAux_ne_nl (n + 1) n [] (by simp)

theorem sepFreeListAppend (a b : List Char)
    (hA : ∀ c ∈ a, (c == '\n') = false) (hB : ∀ c ∈ b, (c == '\n') = false) :
    ∀ c ∈ a ++ b, (c == '\n') = false := by
  intro c hc
  rcases List.mem_append.mp hc with h | h
  · exact hA c h
  · exact hB c h

/-- C8 counterexample: the stripped summary of a concrete result has five
lines, not four. -/
theorem C8_counterexample :
    (linesOf (summary resC8)).length = 5 ∧ (5 : Nat) ≠ 4 := by decide

/-- C8 (amended): for every result whose app id and platform contain no
newline, the plain-text summary consists of exactly five lines — app id,
platform, total permission count, high-risk count, over-permission count —
and the counts on those lines are the rendered length of the permission
list, the number of high-risk permissions, and the length of
over_permissions. -/
theorem C8_summary_five_lines (r : AnalysisResult)
    (ha : ∀ c ∈ r.app_id.toList, c ≠ '\n')
    (hp : ∀ c ∈ r.platform.toList, c ≠ '\n') :
    linesOf (summary r) =
      [("Analysis Summary for " ++ r.app_id).toList,
       ("Platform: " ++ r.platform).toList,
       ("Total Permissions: " ++ natToStr r.permissions.length).toList,
       ("High Risk Permissions: " ++
         natToStr (r.permissions.countP (fun p => p.risk_level == "high"))).toList,
       ("Over-Permissions Detected: " ++ natToStr r.over_permissions.length).toList] ∧
    (linesOf (summary r)).length = 5 := by
  have hnl : ("\n" : String).toList = ['\n'] := rfl
  have hl1 : ∀ c ∈ ("Analysis Summary for " : String).toList, (c == '\n') = false := by decide
  have hl2 : ∀ c ∈ ("Platform: " : String).toList, (c == '\n') = false := by decide
  have hl3 : ∀ c ∈ ("Total Permissions: " : String).toList, (c == '\n') = false := by decide
  have hl4 : ∀ c ∈ ("High Risk Permissions: " : String).toList, (c == '\n') = false := by decide
  have hl5 : ∀ c ∈ ("Over-Permissions Detected: " : String).toList, (c == '\n') = false := by
    decide
  have hid := sepFree_of_ne '\n' r.app_id.toList ha
  have hpl := sepFree_of_ne '\n' r.platform.toList hp
  have hd3 := sepFree_of_ne '\n' (natToStr r.permissions.length).toList
    (natToStr_ne_nl r.permissions.length)
  have hd4 := sepFree_of_ne '\n'
    (natToStr (r.permissions.countP (fun p => p.risk_level == "high"))).toList
    (natToStr_ne_nl (r.permissions.countP (fun p => p.risk_level == "high")))
  have hd5 := sepFree_of_ne '\n' (natToStr r.over_permissions.length).toList
    (natToStr_ne_nl r.over_permissions.length)
  have key : linesOf (summary r) =
      [("Analysis Summary for " ++ r.app_id).toList,
       ("Platform: " ++ r.platform).toList,
       ("Total Permissions: " ++ natToStr r.permissions.length).toList,
       ("High Risk Permissions: " ++
         natToStr (r.permissions.countP (fun p => p.risk_level == "high"))).toList,
       ("Over-Permissions Detected: " ++ natToStr r.over_permissions.length).toList] := by
    unfold linesOf summary
    simp only [strToList_append, hnl, List.append_assoc, List.singleton_append,
      List.cons_append, List.nil_append]
    rw [splitCharsAux_sepFree '\n' _ hl1]
    rw [splitCharsAux_sepFree '\n' _ hid]
    rw [splitCharsAux_sep_cons]
    rw [splitCharsAux_sepFree '\n' _ hl2]
    rw [splitCharsAux_sepFree '\n' _ hpl]
    rw [splitCharsAux_sep_cons]
    rw [splitCharsAux_sepFree '\n' _ hl3]
    rw [splitCharsAux_sepFree '\n' _ hd3]
    rw [splitCharsAux_sep_cons]
    rw [splitCharsAux_sepFree '\n' _ hl4]
    rw [splitCharsAux_sepFree '\n' _ hd4]
    rw [splitCharsAux_sep_cons]
    rw [splitCharsAux_last _ _ (sepFreeListAppend _ _ hl5 hd5)]
    simp
  exact ⟨key, by rw [key]; rfl⟩

theorem C8_summary_five_lines_witness :
    linesOf (summary resC8) =
      [("Analysis Summary for " ++ resC8.app_id).toList,
       ("Platform: " ++ resC8.platform).toList,
       ("Total Permissions: " ++ natToStr resC8.permissions.length).toList,
       ("High Risk Permissions: " ++
         natToStr (resC8.permissions.countP (fun p => p.risk_level == "high"))).toList,
       ("Over-Permissions Detected: " ++ natToStr resC8.over_permissions.length).toList] ∧
    (linesOf (summary resC8)).length = 5 :=
  C8_summary_five_lines resC8 (by decide) (by decide)
